import Mathlib

/- Shallow embedding of the gitlab2jira repository (convert.py and
   markdown2jira.py).  Strings are modelled as List Char.  The re.sub calls
   of convert.py are modelled by a small backtracking matcher that covers
   exactly the pattern shapes used there: a pattern is a sequence of literal
   characters, repetitions of a single-character class (with lower bound,
   optional upper bound, greedy or lazy, optionally a capturing group), and
   the end-of-line anchor.  Line anchoring of the whole pattern and the
   MULTILINE flag are handled by the substitution driver. -/

/-- ASCII fragment of the Python whitespace class (the class \s and the
characters removed by str.lstrip).  All inputs appearing in the theorems
below are ASCII, where this is exact. -/
def pySpace (c : Char) : Bool :=
  c == ' ' || c == '\t' || c == '\n' || c == '\r' || c == '\x0b' || c == '\x0c'

/-- The regex class \d restricted to ASCII. -/
def pyDigit (c : Char) : Bool := c.isDigit

/-- The regex class \w restricted to ASCII. -/
def pyWord (c : Char) : Bool := c.isAlphanum || c == '_'

/-- The regex dot without the DOTALL flag: any character except newline. -/
def dotNL (c : Char) : Bool := c != '\n'

/-- The regex dot under the DOTALL flag: any character. -/
def dotAll (_ : Char) : Bool := true

/-- One element of a compiled pattern: a literal character, a bounded
repetition of a single-character class (lo = least count, hi = greatest
count if bounded, greedy flag, capture flag), or the end-of-line anchor
(written as the dollar sign under MULTILINE in convert.py). -/
inductive RItem where
  | lit (c : Char)
  | rep (p : Char → Bool) (lo : Nat) (hi : Option Nat) (greedy : Bool) (cap : Bool)
  | eol

/-- One piece of a replacement template: literal text or a group reference. -/
inductive Tmpl where
  | str (cs : List Char)
  | ref (n : Nat)

/-- Does the optional upper bound still allow one more repetition? -/
def hiAllows : Option Nat → Bool
  | none => true
  | some h => h != 0

/-- Decrease the optional upper bound by one. -/
def hiDec : Option Nat → Option Nat
  | none => none
  | some h => some (h - 1)

/-- Match a compiled pattern at the start of the string, returning the
number of characters consumed and the captured groups in order.  The
backtracking order reproduces the Python engine: a greedy repetition tries
to consume first and gives back on failure, a lazy repetition tries to stop
first.  The fuel argument only makes the recursion structural so that the
kernel can evaluate it; every recursive call removes a pattern item or a
character, so any fuel above the sum of both lengths is never exhausted. -/
def matchSeqF : Nat → List RItem → List Char → Option (Nat × List (List Char))
  | 0, _, _ => none
  | _ + 1, [], _ => some (0, [])
  | _ + 1, RItem.lit _ :: _, [] => none
  | fuel + 1, RItem.lit c :: items, a :: s =>
    if a = c then (matchSeqF fuel items s).map (fun r => (r.1 + 1, r.2)) else none
  | fuel + 1, RItem.eol :: items, s =>
    if s = [] ∨ s.head? = some '\n' then matchSeqF fuel items s else none
  | fuel + 1, RItem.rep p lo hi g cap :: items, s =>
    let stop : Option (Nat × List (List Char)) :=
      if lo = 0 then
        (matchSeqF fuel items s).map (fun r => (r.1, if cap then [] :: r.2 else r.2))
      else none
    let consume : Option (Nat × List (List Char)) :=
      match s with
      | [] => none
      | a :: s2 =>
        if p a && hiAllows hi then
          (matchSeqF fuel (RItem.rep p (lo - 1) (hiDec hi) g cap :: items) s2).map
            (fun r =>
              (r.1 + 1,
                if cap then
                  match r.2 with
                  | c0 :: cs => (a :: c0) :: cs
                  | [] => [[a]]
                else r.2))
        else none
    if g then consume.orElse (fun _ => stop) else stop.orElse (fun _ => consume)

/-- Match with enough fuel for the whole search. -/
def matchSeq (items : List RItem) (s : List Char) : Option (Nat × List (List Char)) :=
  matchSeqF (s.length + items.length + 1) items s

/-- Instantiate a replacement template with the captured groups. -/
def renderTmpl : List Tmpl → List (List Char) → List Char
  | [], _ => []
  | Tmpl.str cs :: rest, caps => cs ++ renderTmpl rest caps
  | Tmpl.ref n :: rest, caps => ((caps.drop (n - 1)).headD []) ++ renderTmpl rest caps

/-- The scanning loop of re.sub.  anch is true when the pattern begins with
the caret anchor, ml when the MULTILINE flag is set; fi records whether the
scan is at position zero of the string and bo whether it is at the beginning
of a line.  A successful match emits the instantiated template and resumes
after the match; otherwise one character is copied.  (No pattern in
convert.py can match the empty string; the zero-length case is still given
the Python behaviour of copying one character after the replacement.) -/
def reSubGo (anch ml : Bool) (items : List RItem) (tmpl : List Tmpl) :
    Nat → List Char → Bool → Bool → List Char
  | 0, s, _, _ => s
  | _ + 1, [], fi, bo =>
    if (if anch then (if ml then bo else fi) else true) then
      match matchSeq items [] with
      | some r => renderTmpl tmpl r.2
      | none => []
    else []
  | fuel + 1, c :: s, fi, bo =>
    if (if anch then (if ml then bo else fi) else true) then
      match matchSeq items (c :: s) with
      | some r =>
        if r.1 = 0 then
          renderTmpl tmpl r.2 ++ c :: reSubGo anch ml items tmpl fuel s false (c == '\n')
        else
          renderTmpl tmpl r.2 ++
            reSubGo anch ml items tmpl fuel ((c :: s).drop r.1) false
              (((c :: s).take r.1).getLast? == some '\n')
      | none => c :: reSubGo anch ml items tmpl fuel s false (c == '\n')
    else c :: reSubGo anch ml items tmpl fuel s false (c == '\n')

/-- The model of re.sub(pattern, repl, s, flags): scan from position zero,
which is both the string start and a line start.  The fuel only makes the
recursion structural: every step shortens the string, so fuel above the
string length is never exhausted. -/
def reSub (anch ml : Bool) (items : List RItem) (tmpl : List Tmpl) (s : List Char) :
    List Char :=
  reSubGo anch ml items tmpl (s.length + 1) s true true

/-- Shorthand for the lazy dot-star capturing group, the form (.*?) without
DOTALL, used by the inline rules of convert.py. -/
def lazyDotCap : RItem := RItem.rep dotNL 0 none false true

/-- Shorthand for the greedy dot-star capturing group (.*) without DOTALL,
which under MULTILINE captures the rest of the line. -/
def dotCapLine : RItem := RItem.rep dotNL 0 none true true

/-- Shorthand for the pattern piece \s+ (greedy, no capture). -/
def spacePlus : RItem := RItem.rep pySpace 1 none true false

/-- Shorthand for the pattern piece \s* (greedy, no capture). -/
def spaceStar : RItem := RItem.rep pySpace 0 none true false

/-- The body of convert_gitlab_to_jira from convert.py: the twenty-one
re.sub calls, applied in source order, each rebinding the working text.
Comments name the convert.py line being modelled. -/
def convertChars (s0 : List Char) : List Char :=
  -- line 5: sub of ^#\s+(.*)$ with h1. \1, MULTILINE
  let s := reSub true true [RItem.lit '#', spacePlus, dotCapLine, RItem.eol]
    [Tmpl.str ("h1. ".data), Tmpl.ref 1] s0
  -- line 6: sub of ^##\s+(.*)$ with h2. \1, MULTILINE
  let s := reSub true true
    [RItem.lit '#', RItem.lit '#', spacePlus, dotCapLine, RItem.eol]
    [Tmpl.str ("h2. ".data), Tmpl.ref 1] s
  -- line 7: sub of ^###\s+(.*)$ with h3. \1, MULTILINE
  let s := reSub true true
    [RItem.lit '#', RItem.lit '#', RItem.lit '#', spacePlus, dotCapLine, RItem.eol]
    [Tmpl.str ("h3. ".data), Tmpl.ref 1] s
  -- line 10: sub of \*\*(.*?)\*\* with *\1*
  let s := reSub false false
    [RItem.lit '*', RItem.lit '*', lazyDotCap, RItem.lit '*', RItem.lit '*']
    [Tmpl.str ("*".data), Tmpl.ref 1, Tmpl.str ("*".data)] s
  -- line 11: sub of __(.*?)__ with *\1*
  let s := reSub false false
    [RItem.lit '_', RItem.lit '_', lazyDotCap, RItem.lit '_', RItem.lit '_']
    [Tmpl.str ("*".data), Tmpl.ref 1, Tmpl.str ("*".data)] s
  -- line 12: sub of \*(.*?)\* with _\1_
  let s := reSub false false [RItem.lit '*', lazyDotCap, RItem.lit '*']
    [Tmpl.str ("_".data), Tmpl.ref 1, Tmpl.str ("_".data)] s
  -- line 13: sub of _(.*?)_ with _\1_
  let s := reSub false false [RItem.lit '_', lazyDotCap, RItem.lit '_']
    [Tmpl.str ("_".data), Tmpl.ref 1, Tmpl.str ("_".data)] s
  -- line 16: sub of ^\s*-\s+(.*)$ with - \1, MULTILINE
  let s := reSub true true
    [spaceStar, RItem.lit '-', spacePlus, dotCapLine, RItem.eol]
    [Tmpl.str ("- ".data), Tmpl.ref 1] s
  -- line 17: sub of ^\s\x7b2,\x7d-\s+(.*)$ with -- \1, MULTILINE
  let s := reSub true true
    [RItem.rep pySpace 2 none true false, RItem.lit '-', spacePlus, dotCapLine, RItem.eol]
    [Tmpl.str ("-- ".data), Tmpl.ref 1] s
  -- line 20: sub of ^\s*\d+\.\s+(.*)$ with # \1, MULTILINE
  let s := reSub true true
    [spaceStar, RItem.rep pyDigit 1 none true false, RItem.lit '.', spacePlus,
      dotCapLine, RItem.eol]
    [Tmpl.str ("# ".data), Tmpl.ref 1] s
  -- line 21: sub of ^\s\x7b2,\x7d\d+\.\s+(.*)$ with ## \1, MULTILINE
  let s := reSub true true
    [RItem.rep pySpace 2 none true false, RItem.rep pyDigit 1 none true false,
      RItem.lit '.', spacePlus, dotCapLine, RItem.eol]
    [Tmpl.str ("## ".data), Tmpl.ref 1] s
  -- line 24: sub of \[(.*?)\]\((.*?)\) with [\1|\2]
  let s := reSub false false
    [RItem.lit '[', lazyDotCap, RItem.lit ']', RItem.lit '(', lazyDotCap, RItem.lit ')']
    [Tmpl.str ("[".data), Tmpl.ref 1, Tmpl.str ("|".data), Tmpl.ref 2, Tmpl.str ("]".data)] s
  -- line 27: sub of !\[(.*?)\]\((.*?)\) with !\2|alt=\1!
  let s := reSub false false
    [RItem.lit '!', RItem.lit '[', lazyDotCap, RItem.lit ']', RItem.lit '(',
      lazyDotCap, RItem.lit ')']
    [Tmpl.str ("!".data), Tmpl.ref 2, Tmpl.str ("|alt=".data), Tmpl.ref 1,
      Tmpl.str ("!".data)] s
  -- line 30: sub of the backtick pair pattern with the doubled-brace wrapper
  let s := reSub false false [RItem.lit '`', lazyDotCap, RItem.lit '`']
    [Tmpl.str ("\x7b\x7b".data), Tmpl.ref 1, Tmpl.str ("\x7d\x7d".data)] s
  -- line 33: sub of the triple-backtick fence pattern with the code wrapper,
  -- DOTALL, so the dot-star groups may cross newlines
  let s := reSub false false
    [RItem.lit '`', RItem.lit '`', RItem.lit '`',
      RItem.rep dotAll 0 none false true, RItem.lit '\n',
      RItem.rep dotAll 0 none false true,
      RItem.lit '`', RItem.lit '`', RItem.lit '`']
    [Tmpl.str ("\x7bcode:".data), Tmpl.ref 1, Tmpl.str ("\x7d\n".data),
      Tmpl.ref 2, Tmpl.str ("\n\x7bcode\x7d".data)] s
  -- line 36: sub of ^>\s+(.*)$ with the quote wrapper, MULTILINE
  let s := reSub true true [RItem.lit '>', spacePlus, dotCapLine, RItem.eol]
    [Tmpl.str ("\x7bquote\x7d\n".data), Tmpl.ref 1, Tmpl.str ("\n\x7bquote\x7d".data)] s
  -- line 39: sub of ^\|(.*)\|$ with ||\1||, MULTILINE
  let s := reSub true true [RItem.lit '|', dotCapLine, RItem.lit '|', RItem.eol]
    [Tmpl.str ("||".data), Tmpl.ref 1, Tmpl.str ("||".data)] s
  -- line 40: sub of ^\|\s*:?-+:?\s*\| with |, MULTILINE
  let s := reSub true true
    [RItem.lit '|', spaceStar, RItem.rep (fun c => c == ':') 0 (some 1) true false,
      RItem.rep (fun c => c == '-') 1 none true false,
      RItem.rep (fun c => c == ':') 0 (some 1) true false, spaceStar, RItem.lit '|']
    [Tmpl.str ("|".data)] s
  -- line 43: sub of ^-\x7b3,\x7d with ----, no MULTILINE flag, so the caret
  -- only anchors at the very start of the string
  let s := reSub true false [RItem.rep (fun c => c == '-') 3 none true false]
    [Tmpl.str ("----".data)] s
  -- line 46: sub of ~~(.*?)~~ with -\1-
  let s := reSub false false
    [RItem.lit '~', RItem.lit '~', lazyDotCap, RItem.lit '~', RItem.lit '~']
    [Tmpl.str ("-".data), Tmpl.ref 1, Tmpl.str ("-".data)] s
  -- line 49: sub of @(\w+) with [~\1]
  let s := reSub false false
    [RItem.lit '@', RItem.rep pyWord 1 none true true]
    [Tmpl.str ("[~".data), Tmpl.ref 1, Tmpl.str ("]".data)] s
  s

/-- convert_gitlab_to_jira of convert.py, lines 3 to 51. -/
def convert_gitlab_to_jira (s : String) : String :=
  String.mk (convertChars s.data)


/- markdown2jira.py.  The function splits on newline, keeps a stack of list
marker characters, and rebuilds one output line per input line.  Indexing
the result of str.split(' ', 1) at position 1 raises IndexError when the
stripped line holds no space, so the embedding returns an Option. -/

/-- Python str.split applied to the newline character: the first piece and
the remaining pieces of the split. -/
def splitNL2 : List Char → List Char × List (List Char)
  | [] => ([], [])
  | c :: cs =>
    let r := splitNL2 cs
    if c = '\n' then ([], r.1 :: r.2) else (c :: r.1, r.2)

/-- The full list of pieces of the newline split; never empty, matching
Python, where an empty string splits to one empty piece. -/
def splitNL (l : List Char) : List (List Char) :=
  (splitNL2 l).1 :: (splitNL2 l).2

/-- Python newline join, the inverse direction of splitNL. -/
def joinNL : List (List Char) → List Char
  | [] => []
  | [l] => l
  | l :: ls => l ++ '\n' :: joinNL ls

/-- Python str.lstrip: drop leading whitespace characters. -/
def pyLstrip : List Char → List Char
  | [] => []
  | c :: cs => if pySpace c then pyLstrip cs else c :: cs

/-- markdown2jira.py line 9: stripped.startswith with the tuple of the nine
two-character strings from 1. to 9. (only single-digit ordinals). -/
def m2jIsOrdered : List Char → Bool
  | c :: '.' :: _ =>
    c == '1' || c == '2' || c == '3' || c == '4' || c == '5' ||
      c == '6' || c == '7' || c == '8' || c == '9'
  | _ => false

/-- markdown2jira.py line 10: stripped.startswith with the tuple of the
three marker characters. -/
def m2jIsUnordered : List Char → Bool
  | c :: _ => c == '-' || c == '*' || c == '+'
  | [] => false

/-- The test on markdown2jira.py line 13: the line, once stripped, is an
ordered or unordered list item. -/
def m2jIsList (line : List Char) : Bool :=
  m2jIsOrdered (pyLstrip line) || m2jIsUnordered (pyLstrip line)

/-- markdown2jira.py lines 8 and 15: the indentation width of the line
(length minus stripped length) divided by two. -/
def m2jDepth (line : List Char) : Nat :=
  (line.length - (pyLstrip line).length) / 2

/-- markdown2jira.py lines 19 to 22: the marker character for the line. -/
def m2jListChar (stripped : List Char) : Char :=
  if m2jIsOrdered stripped then '#' else '-'

/-- markdown2jira.py lines 16, 17 and 25: on a list line, pop the stack
while it is longer than the depth (List.take depth), then push the marker
character; any other line leaves the stack unchanged. -/
def m2jStackStep (stack : List Char) (line : List Char) : List Char :=
  if m2jIsList line then
    stack.take (m2jDepth line) ++ [m2jListChar (pyLstrip line)]
  else stack

/-- Python stripped.split(' ', 1) indexed at 1: everything after the first
space character, or none when there is no space (the IndexError of
markdown2jira.py line 28). -/
def splitSp1 : List Char → Option (List Char)
  | [] => none
  | c :: cs => if c = ' ' then some cs else splitSp1 cs

/-- The loop of markdown_to_jira (markdown2jira.py lines 6 to 32): process
the lines in order, threading the stack, producing one output line per
input line; none models the uncaught IndexError. -/
def m2jGo : List Char → List (List Char) → Option (List (List Char))
  | _, [] => some []
  | stack, line :: rest =>
    if m2jIsList line then
      let stack2 := m2jStackStep stack line
      match splitSp1 (pyLstrip line) with
      | none => none
      | some tail =>
        (m2jGo stack2 rest).map
          (fun out =>
            (List.replicate stack2.length (m2jListChar (pyLstrip line)) ++
              ' ' :: tail) :: out)
    else
      (m2jGo stack rest).map (fun out => line :: out)

/-- markdown_to_jira of markdown2jira.py, lines 1 to 34; some t is a normal
return of t and none is the uncaught IndexError. -/
def markdown_to_jira (s : String) : Option String :=
  (m2jGo [] (splitNL s.data)).map (fun out => String.mk (joinNL out))


/- Helper lemmas about the list stack of markdown_to_jira. -/

/-- After a list line the stack has length min of the old length and the
depth, plus one: the while loop truncates to the depth and one marker is
pushed. -/
theorem m2jStackStep_length (stack line : List Char) (h : m2jIsList line = true) :
    (m2jStackStep stack line).length = min stack.length (m2jDepth line) + 1 := by
  simp [m2jStackStep, h, List.length_take, Nat.min_comm]

/-- A line that is not a list line leaves the stack unchanged. -/
theorem m2jStackStep_skip (stack line : List Char) (h : m2jIsList line = false) :
    m2jStackStep stack line = stack := by
  simp [m2jStackStep, h]

/-- Claim C1: for every input string both functions return a string and
never signal a failure.  The code contradicts this: on the single-line
input consisting of the list marker alone, markdown_to_jira classifies the
line as a list item and then indexes position 1 of a one-element split,
an uncaught IndexError, modelled here as none. -/
theorem markdown_to_jira_marker_only_line_fails : markdown_to_jira ("-") = none := by
  decide

/-- Claim C2 counterexample: convert_gitlab_to_jira applied to bold input
does not return the single-pass bold result, because the later emphasis
rule re-matches the output of the bold rule. -/
theorem convert_bold_counterexample :
    ¬ (convert_gitlab_to_jira ("**bold**") = "*bold*") := by
  decide

/-- Claim C2 amended: the bold input is first rewritten by the bold rule to
single asterisks and then re-wrapped by the emphasis rule, producing the
underscore form. -/
theorem convert_bold_amended : convert_gitlab_to_jira ("**bold**") = "_bold_" := by
  decide

/-- Claim C3: a fenced code block should convert to the Jira code wrapper.
The code contradicts this: the inline-code rule of convert.py line 30 runs
before the fence rule of line 33 and consumes the backtick pairs of both
fences, so the fence rule never matches and the output keeps the mangled
fences. -/
theorem convert_code_block_fence_destroyed :
    convert_gitlab_to_jira ("```python\nx\n```") =
      "\x7b\x7b\x7d\x7d`python\nx\n\x7b\x7b\x7d\x7d`" := by
  decide

/-- Claim C4: an image should convert to the Jira image form.  The code
contradicts this: the link rule of convert.py line 24 runs before the image
rule of line 27 and consumes the bracket-parenthesis pair, so the image
rule never matches. -/
theorem convert_image_consumed_by_link_rule :
    convert_gitlab_to_jira ("![Alt](http://x.com/i.png)") =
      "![Alt|http://x.com/i.png]" := by
  decide

/-- Claim C7: the nested unordered rule should produce a double marker for
a line with two or more leading spaces.  The code contradicts this: the
top-level rule of convert.py line 16 begins with \s* and therefore already
matches the indented line, removing the indentation, so the rule of line 17
never matches. -/
theorem convert_nested_list_flattened :
    convert_gitlab_to_jira ("  - text") = "- text" ∧
      convert_gitlab_to_jira ("- text") = "- text" := by
  constructor
  · decide
  · decide

/-- Claim C8 counterexample: a horizontal rule line after the first line of
the document is not rewritten, because the substitution at convert.py line
43 omits the MULTILINE flag. -/
theorem convert_hrule_counterexample :
    ¬ (convert_gitlab_to_jira ("a\n---") = "a\n----") := by
  decide

/-- Claim C8 amended: three or more hyphens are rewritten to four only when
they begin the document; the same line elsewhere passes through unchanged,
since the rule at convert.py line 43 lacks the MULTILINE flag and its caret
anchors only at position zero. -/
theorem convert_hrule_start_only :
    convert_gitlab_to_jira ("---") = "----" ∧
      convert_gitlab_to_jira ("a\n---") = "a\n---" := by
  constructor
  · decide
  · decide

/-- Claim C5 counterexample: after the two lines of the document whose
second list line jumps two indentation levels at once, the stack has length
two while the computed depth of that line plus one is three; the stated
invariant fails because the pop loop only shrinks the stack and a deep jump
cannot lengthen it past the old length plus one. -/
theorem m2j_stack_invariant_counterexample :
    ¬ ((m2jStackStep (m2jStackStep [] (("- a" : String).data))
          (("    - b" : String).data)).length
        = m2jDepth (("    - b" : String).data) + 1) := by
  decide

/-- Claim C5 amended: after a list line the stack length equals the least
of the previous length and the computed depth, plus one (so it equals depth
plus one exactly when the previous stack already reached the depth), and a
non-list line leaves the stack unchanged. -/
theorem m2j_stack_invariant (stack line : List Char) :
    (m2jIsList line = true →
      (m2jStackStep stack line).length = min stack.length (m2jDepth line) + 1) ∧
    (m2jIsList line = false → m2jStackStep stack line = stack) :=
  ⟨fun h => m2jStackStep_length stack line h,
   fun h => m2jStackStep_skip stack line h⟩

/-- Witness for the amended claim C5 at concrete inputs: a list line at
depth zero over a stack of length two, and a plain line. -/
theorem m2j_stack_invariant_witness :
    (m2jStackStep ['-', '#'] (("- x" : String).data)).length
        = min (['-', '#'] : List Char).length (m2jDepth (("- x" : String).data)) + 1
      ∧ m2jStackStep ['-'] (("plain" : String).data) = ['-'] :=
  ⟨(m2j_stack_invariant ['-', '#'] (("- x" : String).data)).1 (by decide),
   (m2j_stack_invariant ['-'] (("plain" : String).data)).2 (by decide)⟩

/-- Claim C6 counterexample: on a second list line at the same depth the
stack does not grow by one entry; the pop loop first removes the same-depth
entry, so the length stays one instead of becoming two. -/
theorem m2j_same_depth_counterexample :
    ¬ ((m2jStackStep (m2jStackStep [] (("- a" : String).data))
          (("- b" : String).data)).length
        = (m2jStackStep [] (("- a" : String).data)).length + 1) := by
  decide

/-- Claim C6 amended: a list line pops every entry deeper than or at its
own depth before pushing, so when the depth is already covered by the stack
two consecutive list lines at the same depth leave the stack length, and
hence the emitted marker-run length, unchanged rather than growing. -/
theorem m2j_same_depth_stable (stack l1 l2 : List Char)
    (h1 : m2jIsList l1 = true) (h2 : m2jIsList l2 = true)
    (hd : m2jDepth l2 = m2jDepth l1) (hle : m2jDepth l1 ≤ stack.length) :
    (m2jStackStep (m2jStackStep stack l1) l2).length
      = (m2jStackStep stack l1).length := by
  rw [m2jStackStep_length _ _ h2, m2jStackStep_length _ _ h1, hd]
  omega

/-- Witness for the amended claim C6 at concrete inputs: two top-level list
lines over the empty stack. -/
theorem m2j_same_depth_stable_witness :
    (m2jStackStep (m2jStackStep [] (("- a" : String).data))
        (("1. b" : String).data)).length
      = (m2jStackStep [] (("- a" : String).data)).length :=
  m2j_same_depth_stable [] (("- a" : String).data) (("1. b" : String).data)
    (by decide) (by decide) (by decide) (by decide)

/-- Claim C9 counterexample: a lone nested unordered item with two leading
spaces does not produce a double marker, because over the empty stack the
pop loop does nothing and a single marker is pushed. -/
theorem m2j_lone_nested_item_counterexample :
    ¬ (markdown_to_jira ("  - item") = some ("-- item")) := by
  decide

/-- Claim C9 amended: a top-level unordered item and a top-level ordered
item convert as claimed; the two-space indented item yields a double marker
only when a depth-zero list line precedes it, and standing alone it yields
a single marker. -/
theorem m2j_single_item_lines :
    markdown_to_jira ("- item") = some ("- item")
      ∧ markdown_to_jira ("1. item") = some ("# item")
      ∧ markdown_to_jira ("  - item") = some ("- item")
      ∧ markdown_to_jira ("- a\n  - item") = some ("- a\n-- item") := by
  refine ⟨by decide, by decide, by decide, by decide⟩

/- Lemmas for the line-count invariant of markdown_to_jira. -/

/-- No piece produced by the newline split contains a newline. -/
theorem splitNL2_no_newline (l : List Char) :
    ('\n' ∉ (splitNL2 l).1) ∧ ∀ p ∈ (splitNL2 l).2, '\n' ∉ p := by
  induction l with
  | nil => simp [splitNL2]
  | cons a as ih =>
    by_cases ha : a = '\n'
    · subst ha
      simp only [splitNL2, if_pos rfl]
      refine ⟨by simp, ?_⟩
      intro p hp
      rcases List.mem_cons.mp hp with h1 | h2
      · subst h1; exact ih.1
      · exact ih.2 p h2
    · simp only [splitNL2, if_neg ha]
      refine ⟨?_, ih.2⟩
      intro hmem
      rcases List.mem_cons.mp hmem with h1 | h2
      · exact ha h1.symm
      · exact ih.1 h2

/-- Splitting a concatenation whose first part is newline-free prepends
that part to the first piece of the split of the second part. -/
theorem splitNL2_append (l r : List Char) (h : '\n' ∉ l) :
    splitNL2 (l ++ r) = (l ++ (splitNL2 r).1, (splitNL2 r).2) := by
  induction l with
  | nil => simp
  | cons a as ih =>
    have ha : ¬ (a = '\n') := by
      intro e
      exact h (by simp [e])
    have h2 : '\n' ∉ as := fun hm => h (List.mem_cons_of_mem _ hm)
    simp [splitNL2, ha, ih h2]

/-- Splitting undoes joining for a nonempty list of newline-free lines. -/
theorem splitNL_joinNL (ls : List (List Char)) (h : ls ≠ [])
    (hnl : ∀ l ∈ ls, '\n' ∉ l) : splitNL (joinNL ls) = ls := by
  induction ls with
  | nil => exact absurd rfl h
  | cons l rest ih =>
    cases rest with
    | nil =>
      have h1 : '\n' ∉ l := hnl l (by simp)
      have e := splitNL2_append l [] h1
      simp only [List.append_nil] at e
      simp [joinNL, splitNL, e, splitNL2]
    | cons l2 rest2 =>
      have h1 : '\n' ∉ l := hnl l (by simp)
      have hrec := ih (by simp) (fun x hx => hnl x (List.mem_cons_of_mem _ hx))
      have e := splitNL2_append l ('\n' :: joinNL (l2 :: rest2)) h1
      simp only [splitNL] at hrec ⊢
      simp only [joinNL, e, splitNL2, if_pos rfl]
      simp [hrec]

/-- Members of the stripped line are members of the line. -/
theorem pyLstrip_mem (l : List Char) (c : Char) : c ∈ pyLstrip l → c ∈ l := by
  induction l with
  | nil => intro h; simpa [pyLstrip] using h
  | cons a as ih =>
    intro h
    rw [pyLstrip] at h
    by_cases ha : pySpace a = true
    · rw [if_pos ha] at h
      exact List.mem_cons_of_mem _ (ih h)
    · rwa [if_neg ha] at h

/-- Members of the tail after the first space are members of the line. -/
theorem splitSp1_mem (l : List Char) :
    ∀ t c, splitSp1 l = some t → c ∈ t → c ∈ l := by
  induction l with
  | nil => intro t c h; simp [splitSp1] at h
  | cons a as ih =>
    intro t c h hc
    rw [splitSp1] at h
    by_cases ha : a = ' '
    · rw [if_pos ha] at h
      cases h
      exact List.mem_cons_of_mem _ hc
    · rw [if_neg ha] at h
      exact List.mem_cons_of_mem _ (ih t c h hc)

/-- The marker character is never a newline. -/
theorem m2jListChar_ne_newline (s : List Char) : m2jListChar s ≠ '\n' := by
  rw [m2jListChar]
  split
  · decide
  · decide

/-- A successful run of the loop yields exactly one output line per input
line. -/
theorem m2jGo_length (ls : List (List Char)) :
    ∀ stack out, m2jGo stack ls = some out → out.length = ls.length := by
  induction ls with
  | nil =>
    intro stack out h
    simp only [m2jGo, Option.some.injEq] at h
    simp [← h]
  | cons line rest ih =>
    intro stack out h
    by_cases hl : m2jIsList line = true
    · cases hsp : splitSp1 (pyLstrip line) with
      | none => simp [m2jGo, hl, hsp] at h
      | some tail =>
        simp only [m2jGo, hl, if_true, hsp, Option.map_eq_some'] at h
        obtain ⟨out1, h1, h2⟩ := h
        subst h2
        simp [ih _ _ h1]
    · simp only [m2jGo, hl, Bool.false_eq_true, if_false, Option.map_eq_some'] at h
      obtain ⟨out1, h1, h2⟩ := h
      subst h2
      simp [ih _ _ h1]

/-- A successful run of the loop on newline-free lines yields newline-free
lines. -/
theorem m2jGo_no_newline (ls : List (List Char)) :
    ∀ stack out, m2jGo stack ls = some out → (∀ l ∈ ls, '\n' ∉ l) →
      ∀ l ∈ out, '\n' ∉ l := by
  induction ls with
  | nil =>
    intro stack out h _
    simp only [m2jGo, Option.some.injEq] at h
    simp [← h]
  | cons line rest ih =>
    intro stack out h hin
    by_cases hl : m2jIsList line = true
    · cases hsp : splitSp1 (pyLstrip line) with
      | none => simp [m2jGo, hl, hsp] at h
      | some tail =>
        simp only [m2jGo, hl, if_true, hsp, Option.map_eq_some'] at h
        obtain ⟨out1, h1, h2⟩ := h
        subst h2
        intro l hlmem
        rcases List.mem_cons.mp hlmem with hEq | hmem
        · subst hEq
          intro hnl
          rcases List.mem_append.mp hnl with hrep | hcons
          · exact m2jListChar_ne_newline (pyLstrip line)
              (List.eq_of_mem_replicate hrep).symm
          · rcases List.mem_cons.mp hcons with hspc | htl
            · exact (by decide : ¬ (('\n' : Char) = ' ')) hspc
            · exact hin line (by simp)
                (pyLstrip_mem line '\n' (splitSp1_mem _ tail '\n' hsp htl))
        · exact ih _ _ h1 (fun l2 hl2 => hin l2 (by simp [hl2])) l hmem
    · simp only [m2jGo, hl, Bool.false_eq_true, if_false, Option.map_eq_some'] at h
      obtain ⟨out1, h1, h2⟩ := h
      subst h2
      intro l hlmem
      rcases List.mem_cons.mp hlmem with hEq | hmem
      · subst hEq; exact hin _ (by simp)
      · exact ih _ _ h1 (fun l2 hl2 => hin l2 (by simp [hl2])) l hmem

/-- Claim C10: whenever markdown_to_jira completes without failure, the
output has exactly as many newline-separated lines as the input, since the
loop emits one line per input line and no emitted line contains a
newline. -/
theorem markdown_to_jira_line_count (s t : String)
    (h : markdown_to_jira s = some t) :
    (splitNL t.data).length = (splitNL s.data).length := by
  rw [markdown_to_jira, Option.map_eq_some'] at h
  obtain ⟨out, hgo, ht⟩ := h
  have hdata : t.data = joinNL out := by rw [← ht]
  have hlen : out.length = (splitNL s.data).length :=
    m2jGo_length (splitNL s.data) [] out hgo
  have hne : out ≠ [] := by
    intro he
    rw [he] at hlen
    simp [splitNL] at hlen
  have hnlin : ∀ l ∈ splitNL s.data, '\n' ∉ l := by
    intro l hl
    rcases List.mem_cons.mp hl with h1 | h2
    · subst h1; exact (splitNL2_no_newline _).1
    · exact (splitNL2_no_newline _).2 l h2
  have hnlout := m2jGo_no_newline (splitNL s.data) [] out hgo hnlin
  rw [hdata, splitNL_joinNL out hne hnlout, hlen]

/-- Witness for claim C10 at a concrete input: a two-line document whose
first line is an indented list item, mapped to a two-line output. -/
theorem markdown_to_jira_line_count_witness :
    (splitNL (("- a\nx" : String).data)).length
      = (splitNL (("  - a\nx" : String).data)).length :=
  markdown_to_jira_line_count ("  - a\nx") ("- a\nx") (by decide)
